import Mathlib

/-!
Verification of the client-side session/connectivity state machine of the
RAG-powered chatbot frontend (the `ChatUI` component).

The component's state and its event handlers (`handleSendMessage`,
`simulateStreamingResponse`, `checkConnection`, `initializeSession`,
`handleResetSession`) are embedded as pure Lean functions over an explicit
`ChatState`.  Asynchronous behaviour (fetch resolution, reveal-timer ticks)
is modelled by a labelled event step relation: each network call's outcome
is an event parameter, and each `setInterval` closure is a `RevealTimer`
record carrying the closure variables (`words`, `currentText`, `wordIndex`).
-/

/-- The `sender` field of a transcript message: `'user'` or `'bot'`. -/
inductive Sender where
  | user
  | bot
deriving DecidableEq, Repr

/-- A cited source attached to a bot message (`{ title, source, url }`,
the fields the component reads). -/
structure Source where
  title : String
  source : String
  url : String
deriving DecidableEq, Repr

/-- A transcript message.  JavaScript object fields that may be absent
(`sources`, `isStreaming`, `isError`, `isWelcome`) default to
`none` / `false`, matching `undefined` being falsy. -/
structure Msg where
  id : Nat
  text : String
  sender : Sender
  timestamp : Nat
  sources : Option (List Source) := none
  isStreaming : Bool := false
  isError : Bool := false
  isWelcome : Bool := false
deriving DecidableEq, Repr

/-- The closure state of one `setInterval` callback created by
`simulateStreamingResponse`: the captured `words`, `currentText` and
`wordIndex` variables. -/
structure RevealTimer where
  words : List String
  currentText : String
  wordIndex : Nat
deriving DecidableEq, Repr

/-- The component state: the `useState` fields of `ChatUI`, the persisted
`localStorage` session key (`storedSessionId`), whether a chat request is
in flight (`pendingChat`), and the live reveal intervals (`revealTimers`,
in creation order; the source never clears an old interval when starting a
new reveal, so several can coexist). -/
structure ChatState where
  sessionId : Option String
  isConnected : Bool
  messages : List Msg
  inputValue : String
  isLoading : Bool
  isInitializing : Bool
  isFirstLoad : Bool
  error : Option String
  storedSessionId : Option String
  pendingChat : Bool
  revealTimers : List RevealTimer
deriving DecidableEq, Repr

/-- JavaScript `String.prototype.trim()`: strip whitespace from both ends. -/
def jsTrim (s : String) : String :=
  String.mk (((s.data.dropWhile Char.isWhitespace).reverse.dropWhile
    Char.isWhitespace).reverse)

/-- JavaScript `str.split(' ')` at the character-list level: split at every
single space, keeping empty fragments; `[] ↦ [[]]` (so `"".split(' ')`
is `[""]`). -/
def jsSplitChars : List Char → List (List Char)
  | [] => [[]]
  | c :: cs =>
    if c = ' ' then [] :: jsSplitChars cs
    else
      match jsSplitChars cs with
      | [] => [[c]]
      | w :: ws => (c :: w) :: ws

/-- JavaScript `fullText.split(' ')`. -/
def jsSplit (s : String) : List String :=
  (jsSplitChars s.data).map String.mk

/-- The user message `handleSendMessage` appends:
`{ id: Date.now(), text: inputValue.trim(), sender: 'user', timestamp }`. -/
def userMsg (now : Nat) (text : String) : Msg :=
  { id := now, text := text, sender := Sender.user, timestamp := now }

/-- The typing placeholder `handleSendMessage` appends:
`{ id: Date.now() + 1, text: '', sender: 'bot', isStreaming: true }`. -/
def typingMsg (now : Nat) : Msg :=
  { id := now + 1, text := "", sender := Sender.bot, timestamp := now,
    isStreaming := true }

/-- The streaming message `simulateStreamingResponse` installs as the new
tail: `{ id: Date.now(), text: '', sender: 'bot', isStreaming: true, sources }`. -/
def streamMsg (now : Nat) (sources : Option (List Source)) : Msg :=
  { id := now, text := "", sender := Sender.bot, timestamp := now,
    sources := sources, isStreaming := true }

/-- Which error text the dispatcher's catch block uses: `AbortError`
(timeout) vs any other failure. -/
inductive FetchErrKind where
  | abort
  | net
deriving DecidableEq, Repr

/-- The dispatcher's error text, by failure kind. -/
def chatErrText : FetchErrKind → String
  | FetchErrKind.abort =>
      "Request timed out. Please try again or check if the backend is responding."
  | FetchErrKind.net =>
      "I'm sorry, I encountered an error processing your request. Please try again later."

/-- The finalized error message the dispatcher appends on failure. -/
def chatErrorMsg (now : Nat) (kind : FetchErrKind) : Msg :=
  { id := now, text := chatErrText kind, sender := Sender.bot,
    timestamp := now, isError := true }

/-- The guard of `handleSendMessage`:
`if (!inputValue.trim() || isLoading || !sessionId || !isConnected) return`. -/
def sendGuard (s : ChatState) : Bool :=
  !(jsTrim s.inputValue == "") && !s.isLoading && s.sessionId.isSome
    && s.isConnected

/-- The synchronous part of `handleSendMessage` (lines 200-215 of the
component): append the user message, clear the input, set `isLoading`,
clear `error`, append the typing placeholder and issue the chat request. -/
def handleSendMessage (now : Nat) (s : ChatState) : ChatState :=
  if sendGuard s then
    { s with
      messages := s.messages ++ [userMsg now (jsTrim s.inputValue), typingMsg now],
      inputValue := "",
      isLoading := true,
      error := none,
      pendingChat := true }
  else s

/-- `simulateStreamingResponse(fullText, sources)` (synchronous part):
replace the tail message (`prev.slice(0, -1)` plus a fresh streaming
message) and start a new interval; the old intervals are not cleared. -/
def simulateStreamingStart (now : Nat) (fullText : String)
    (sources : Option (List Source)) (s : ChatState) : ChatState :=
  { s with
    messages := s.messages.dropLast ++ [streamMsg now sources],
    revealTimers := s.revealTimers ++
      [{ words := jsSplit fullText, currentText := "", wordIndex := 0 }] }

/-- The dispatcher's success continuation: `setIsConnected(true)`,
`simulateStreamingResponse(data.response, data.sources)`, then the
`finally` block's `setIsLoading(false)`. -/
def handleChatSuccess (now : Nat) (response : String)
    (sources : Option (List Source)) (s : ChatState) : ChatState :=
  let s1 := simulateStreamingStart now response sources
    { s with isConnected := true, pendingChat := false }
  { s1 with isLoading := false }

/-- The dispatcher's catch block: `setIsConnected(false)`, drop every
streaming message and append one finalized error message, then
`setIsLoading(false)`. -/
def handleChatFailure (now : Nat) (kind : FetchErrKind) (s : ChatState) :
    ChatState :=
  { s with
    isConnected := false,
    pendingChat := false,
    isLoading := false,
    messages := s.messages.filter (fun m => !m.isStreaming) ++
      [chatErrorMsg now kind] }

/-- The interval callback's target test:
`lastMessage && lastMessage.sender === 'bot' && lastMessage.isStreaming`. -/
def msgStreamTarget (m : Msg) : Bool :=
  (match m.sender with
   | Sender.bot => true
   | Sender.user => false) && m.isStreaming

/-- `setMessages` inside the interval callback: copy the array and mutate
the last message when it is a streaming bot message. -/
def mutateTailIfStreaming (f : Msg → Msg) (ms : List Msg) : List Msg :=
  match ms.getLast? with
  | none => ms
  | some m => ms.dropLast ++ [if msgStreamTarget m then f m else m]

/-- One firing of a reveal interval: while `wordIndex < words.length`
append the next token to `currentText` and write it into the tail message;
otherwise clear the tail's streaming flag and `clearInterval`.  Returns
the updated closure state (`none` once the interval is cleared) and the
updated transcript. -/
def revealTickTimer (t : RevealTimer) (ms : List Msg) :
    Option RevealTimer × List Msg :=
  if t.wordIndex < t.words.length then
    let newText := t.currentText ++
      (if t.wordIndex > 0 then " " else "") ++ t.words.getD t.wordIndex ""
    (some { t with currentText := newText, wordIndex := t.wordIndex + 1 },
     mutateTailIfStreaming (fun m => { m with text := newText }) ms)
  else
    (none, mutateTailIfStreaming (fun m => { m with isStreaming := false }) ms)

/-- Fire the `i`-th live reveal interval. -/
def applyTick (i : Nat) (s : ChatState) : ChatState :=
  match s.revealTimers.get? i with
  | none => s
  | some t =>
    match revealTickTimer t s.messages with
    | (some t2, ms) =>
        { s with messages := ms, revealTimers := s.revealTimers.set i t2 }
    | (none, ms) =>
        { s with messages := ms, revealTimers := s.revealTimers.eraseIdx i }

/-- Fire the first reveal interval `n` times. -/
def tickN : Nat → ChatState → ChatState
  | 0, s => s
  | n + 1, s => tickN n (applyTick 0 s)

/-- The events of the dispatcher / reveal-engine machine: editing the
input (`onChange`), clicking send, the chat request resolving
(success / failure), and a reveal-interval firing.  `now` stands for the
`Date.now()` value read by the handler. -/
inductive Ev where
  | typeInput (v : String)
  | send (now : Nat)
  | chatOk (now : Nat) (response : String) (sources : Option (List Source))
  | chatErr (now : Nat) (kind : FetchErrKind)
  | tick (i : Nat)
deriving DecidableEq, Repr

/-- When an event can fire: typing needs the textarea enabled
(`disabled={isLoading || !isConnected}`), send needs the dispatcher guard,
a chat continuation needs a request in flight, a tick needs that interval
to be live. -/
def stepEnabled : Ev → ChatState → Bool
  | Ev.typeInput _, s => !s.isLoading && s.isConnected
  | Ev.send _, s => sendGuard s
  | Ev.chatOk _ _ _, s => s.pendingChat
  | Ev.chatErr _ _, s => s.pendingChat
  | Ev.tick i, s => decide (i < s.revealTimers.length)

/-- The state change of each event. -/
def applyEv : Ev → ChatState → ChatState
  | Ev.typeInput v, s => { s with inputValue := v }
  | Ev.send now, s => handleSendMessage now s
  | Ev.chatOk now r srcs, s => handleChatSuccess now r srcs s
  | Ev.chatErr now k, s => handleChatFailure now k s
  | Ev.tick i, s => applyTick i s

/-- Run a list of events. -/
def applyTrace (es : List Ev) (s : ChatState) : ChatState :=
  es.foldl (fun s e => applyEv e s) s

/-- A trace is valid when every event is enabled where it fires. -/
def validTrace (s : ChatState) : List Ev → Bool
  | [] => true
  | e :: es => stepEnabled e s && validTrace (applyEv e s) es

/-- No message of the transcript is streaming. -/
def noStreaming (ms : List Msg) : Bool := ms.all (fun m => !m.isStreaming)

/-- A send is sequenced when it fires only while no reveal is showing,
i.e. no message of the transcript is streaming (the spec's "a user sending
a second message only after the first fully reveals"). -/
def seqOk (s : ChatState) : Ev → Bool
  | Ev.send _ => noStreaming s.messages
  | _ => true

/-- Every send of the trace is sequenced. -/
def sequenced (s : ChatState) : List Ev → Bool
  | [] => true
  | e :: es => seqOk s e && sequenced (applyEv e s) es

/-- The transcript invariant of the spec's data model: at most one message
has `isStreaming = true` and it is the last element — equivalently, no
message before the last is streaming. -/
def streamingInvariant (ms : List Msg) : Bool :=
  ms.dropLast.all (fun m => !m.isStreaming)

/-- How many messages of the transcript are streaming. -/
def countStreaming (ms : List Msg) : Nat :=
  (ms.filter (fun m => m.isStreaming)).length

/-- The last message is a streaming bot message. -/
def tailStreamingBot (ms : List Msg) : Bool :=
  match ms.getLast? with
  | some m => msgStreamTarget m
  | none => false

/-- At most one live interval, and a live interval only while the tail is
a streaming bot message and no chat request is in flight. -/
def timersOk (s : ChatState) : Bool :=
  match s.revealTimers with
  | [] => true
  | [_] => tailStreamingBot s.messages && !s.pendingChat
  | _ :: _ :: _ => false

/-- A chat request in flight only while `isLoading` with no live interval. -/
def pendingOk (s : ChatState) : Bool :=
  !s.pendingChat || (s.isLoading && s.revealTimers.isEmpty)

/-- The inductive invariant of the sequenced machine: the transcript
invariant, at most one live interval, a live interval only while the tail
is a streaming bot message and no request is in flight, and a request in
flight only while `isLoading` with no live interval. -/
def strongInv (s : ChatState) : Bool :=
  streamingInvariant s.messages && timersOk s && pendingOk s

/-- The outcome of one `fetch` call: resolved 2xx, resolved non-2xx,
rejected with `AbortError` (timeout) or with another error. -/
inductive FetchOutcome where
  | ok
  | httpErr
  | abortErr
  | netErr
deriving DecidableEq, Repr

/-- `checkConnection` (the Connectivity Monitor's poll callback): a 2xx
response reconnects only on a transition; a non-2xx response sets
disconnected and its error unconditionally; a thrown error (network
failure or the 8s abort) disconnects only on a transition. -/
def checkConnection (p : FetchOutcome) (s : ChatState) : ChatState :=
  match p with
  | FetchOutcome.ok =>
      if !s.isConnected then { s with isConnected := true, error := none }
      else s
  | FetchOutcome.httpErr =>
      { s with isConnected := false,
               error := some "Backend service returned an error" }
  | FetchOutcome.abortErr =>
      if s.isConnected then
        { s with isConnected := false,
                 error := some "Cannot reach backend service" }
      else s
  | FetchOutcome.netErr =>
      if s.isConnected then
        { s with isConnected := false,
                 error := some "Cannot reach backend service" }
      else s

/-- The welcome message `initializeSession` synthesizes when the loaded
history is empty. -/
def initWelcomeMsg (now : Nat) : Msg :=
  { id := now,
    text := "Hello! I'm Siri's News Assistant. I can help you find the latest news and answer questions about current events. What would you like to know?",
    sender := Sender.bot, timestamp := now, isWelcome := true }

/-- The locally-synthesized error message of the terminal bootstrap
failure path. -/
def initErrorMsg (now : Nat) : Msg :=
  { id := now,
    text := "I'm unable to connect to the chat service. Please make sure the backend server is running and refresh the page to try again.",
    sender := Sender.bot, timestamp := now, isError := true }

/-- What `initializeSession`'s catch block can observe: the thrown error's
`name` is `'AbortError'` for a timeout and anything else otherwise. -/
inductive InitException where
  | abortError
  | otherError
deriving DecidableEq, Repr

/-- The exception a fetch outcome raises inside `initializeSession`
(`none` = the call went through): a non-ok response makes the code throw a
plain `Error`, an abort rejects with `AbortError`, a network failure with
some other error. -/
def fetchExcept : FetchOutcome → Option InitException
  | FetchOutcome.ok => none
  | FetchOutcome.httpErr => some InitException.otherError
  | FetchOutcome.abortErr => some InitException.abortError
  | FetchOutcome.netErr => some InitException.otherError

/-- The environment of one `initializeSession` attempt: the health probe's
outcome, the session-creation call's outcome (used only when no cached
identifier exists), the created identifier, the history
`loadChatHistory` returns (it never throws: `[]` on any failure), and
`Date.now()`. -/
structure InitEnv where
  health : FetchOutcome
  createSession : FetchOutcome
  newSessionId : String
  history : List Msg
  now : Nat
deriving DecidableEq, Repr

/-- The `try` block of `initializeSession` on a state whose
`isInitializing` / `error` / `isConnected` prologue already ran. -/
def initTry (env : InitEnv) (s : ChatState) : Except InitException ChatState :=
  match fetchExcept env.health with
  | some e => Except.error e
  | none =>
    match
      (match s.storedSessionId with
       | some sid => Except.ok (sid, s)
       | none =>
         match fetchExcept env.createSession with
         | some e => Except.error e
         | none =>
             Except.ok (env.newSessionId,
               { s with storedSessionId := some env.newSessionId })) with
    | Except.error e => Except.error e
    | Except.ok (sid, s1) =>
      Except.ok
        { s1 with
          sessionId := some sid,
          isConnected := true,
          isFirstLoad := false,
          messages :=
            if env.history.isEmpty then [initWelcomeMsg env.now]
            else env.history }

/-- The transient status shown while waiting for the cold-start retry. -/
def initTransientError : String :=
  "Backend is starting up (free tier). Retrying in 5 seconds..."

/-- The persistent status of the terminal bootstrap failure path. -/
def initTerminalError : InitException → String
  | InitException.abortError =>
      "Connection timed out. The backend may be starting up on free tier (takes 30-60s). Please wait and refresh."
  | InitException.otherError => "Failed to connect to chat service."

/-- One call of `initializeSession`: prologue, the `try` block, the catch
block (retry branch when `isFirstLoad` and the error is an `AbortError`,
terminal branch otherwise) and the `finally` block.  The returned `Bool`
is whether a delayed retry of the whole bootstrap was scheduled. -/
def initializeSession (env : InitEnv) (s : ChatState) : ChatState × Bool :=
  let s0 := { s with isInitializing := true, error := none, isConnected := false }
  match initTry env s0 with
  | Except.ok s1 => ({ s1 with isInitializing := false }, false)
  | Except.error e =>
    if s0.isFirstLoad ∧ e = InitException.abortError then
      ({ s0 with error := some initTransientError, isInitializing := false },
       true)
    else
      ({ s0 with
           storedSessionId := none,
           sessionId := none,
           messages := [initErrorMsg env.now],
           error := some (initTerminalError e),
           isInitializing := false },
       false)

/-- The welcome message `handleResetSession` installs on success. -/
def resetWelcomeMsg (now : Nat) : Msg :=
  { id := now,
    text := "Session reset! I'm ready to help you with fresh news and information. What would you like to know?",
    sender := Sender.bot, timestamp := now, isWelcome := true }

/-- The error text of `handleResetSession`'s catch block. -/
def resetErrText : FetchOutcome → String
  | FetchOutcome.abortErr => "Reset request timed out."
  | _ => "Failed to reset session."

/-- `handleResetSession`: no-op unless a session exists and the status is
connected; on a 2xx DELETE replace the transcript with the single reset
welcome message and clear the error; on any failure disconnect and set
the failure-specific error; `finally` clears `isLoading`. -/
def handleResetSession (out : FetchOutcome) (now : Nat) (s : ChatState) :
    ChatState :=
  if s.sessionId.isNone || !s.isConnected then s
  else
    match out with
    | FetchOutcome.ok =>
        { s with isLoading := false, messages := [resetWelcomeMsg now],
                 error := none }
    | o =>
        { s with isLoading := false, isConnected := false,
                 error := some (resetErrText o) }

/-- `' ' :: w` separators folded over a token list (character level). -/
def sepCons : List (List Char) → List Char
  | [] => []
  | w :: ws => ' ' :: (w ++ sepCons ws)

/-- Join a token list with single spaces (character level). -/
def joinC : List (List Char) → List Char
  | [] => []
  | w :: ws => w ++ sepCons ws

/-- `" " ++ w` separators folded over a token list (string level). -/
def sepConsStr : List String → String
  | [] => ""
  | w :: ws => " " ++ w ++ sepConsStr ws

/-- The value `currentText` reaches from `cur` at index `i` after the
remaining tokens are appended, mirroring
`currentText += (wordIndex > 0 ? ' ' : '') + words[wordIndex]`. -/
def accumulate (cur : String) (i : Nat) : List String → String
  | [] => cur
  | w :: ws => accumulate (cur ++ (if i > 0 then " " else "") ++ w) (i + 1) ws

theorem jsSplitChars_ne_nil (l : List Char) : jsSplitChars l ≠ [] := by
  cases l with
  | nil => simp [jsSplitChars]
  | cons c cs =>
    simp only [jsSplitChars]
    by_cases h : c = ' '
    · simp [h]
    · simp only [h, if_false]
      cases jsSplitChars cs <;> simp

theorem joinC_jsSplitChars (l : List Char) : joinC (jsSplitChars l) = l := by
  induction l with
  | nil => simp [jsSplitChars, joinC, sepCons]
  | cons c cs ih =>
    by_cases h : c = ' '
    · subst h
      cases hh : jsSplitChars cs with
      | nil => exact absurd hh (jsSplitChars_ne_nil cs)
      | cons w ws =>
        have h1 : jsSplitChars (' ' :: cs) = [] :: w :: ws := by
          simp [jsSplitChars, hh]
        rw [h1]
        have h2 : joinC ([] :: w :: ws) = ' ' :: joinC (w :: ws) := rfl
        rw [h2, ← hh, ih]
    · cases hh : jsSplitChars cs with
      | nil => exact absurd hh (jsSplitChars_ne_nil cs)
      | cons w ws =>
        have h1 : jsSplitChars (c :: cs) = (c :: w) :: ws := by
          simp [jsSplitChars, h, hh]
        rw [h1]
        have h2 : joinC ((c :: w) :: ws) = c :: joinC (w :: ws) := rfl
        rw [h2, ← hh, ih]

theorem string_data_append (a b : String) : (a ++ b).data = a.data ++ b.data :=
  rfl

theorem string_ext_data {a b : String} (h : a.data = b.data) : a = b := by
  cases a; cases b; exact congrArg String.mk h

theorem sepConsStr_map_mk (ws : List (List Char)) :
    sepConsStr (ws.map String.mk) = String.mk (sepCons ws) := by
  induction ws with
  | nil => rfl
  | cons w ws ih =>
    simp only [List.map_cons, sepConsStr, sepCons, ih]
    apply string_ext_data
    simp [string_data_append]

theorem accumulate_pos (ws : List String) :
    ∀ (cur : String) (i : Nat), 0 < i →
      accumulate cur i ws = cur ++ sepConsStr ws := by
  induction ws with
  | nil =>
    intro cur i _
    apply string_ext_data
    simp [accumulate, sepConsStr, string_data_append]
  | cons w ws ih =>
    intro cur i hi
    have hif : (if i > 0 then " " else "") = " " := if_pos hi
    simp only [accumulate, hif, ih _ (i + 1) (Nat.succ_pos i), sepConsStr]
    apply string_ext_data
    simp [string_data_append]

theorem accumulate_zero_cons (w : String) (ws : List String) :
    accumulate "" 0 (w :: ws) = w ++ sepConsStr ws := by
  have h0 : ("" ++ (if (0 : Nat) > 0 then " " else "") ++ w) = w := by
    apply string_ext_data
    simp [string_data_append]
  simp only [accumulate, h0]
  cases ws with
  | nil =>
    apply string_ext_data
    simp [accumulate, sepConsStr, string_data_append]
  | cons v vs => exact accumulate_pos (v :: vs) w 1 Nat.one_pos

/-- Re-joining the tokens of `fullText.split(' ')` with single spaces, the
way the reveal loop accumulates `currentText`, reproduces `fullText`
exactly. -/
theorem accumulate_jsSplit (s : String) : accumulate "" 0 (jsSplit s) = s := by
  unfold jsSplit
  cases hh : jsSplitChars s.data with
  | nil => exact absurd hh (jsSplitChars_ne_nil s.data)
  | cons w ws =>
    rw [List.map_cons, accumulate_zero_cons, sepConsStr_map_mk]
    apply string_ext_data
    have := joinC_jsSplitChars s.data
    rw [hh] at this
    simpa [string_data_append, joinC] using this

theorem jsSplit_ne_nil (s : String) : jsSplit s ≠ [] := by
  unfold jsSplit
  cases hh : jsSplitChars s.data with
  | nil => exact absurd hh (jsSplitChars_ne_nil s.data)
  | cons w ws => simp

theorem mutateTail_concat (f : Msg → Msg) (xs : List Msg) (m : Msg) :
    mutateTailIfStreaming f (xs ++ [m]) =
      xs ++ [if msgStreamTarget m then f m else m] := by
  unfold mutateTailIfStreaming
  rw [List.getLast?_concat, List.dropLast_concat]

theorem mutateTail_dropLast (f : Msg → Msg) (ms : List Msg) :
    (mutateTailIfStreaming f ms).dropLast = ms.dropLast := by
  unfold mutateTailIfStreaming
  cases h : ms.getLast? with
  | none => rfl
  | some m => rw [List.dropLast_concat]

theorem revealTickTimer_mid (t : RevealTimer) (ms : List Msg) (w : String)
    (hw : t.words.get? t.wordIndex = some w) :
    revealTickTimer t ms =
      (some { t with
          currentText :=
            t.currentText ++ (if t.wordIndex > 0 then " " else "") ++ w,
          wordIndex := t.wordIndex + 1 },
       mutateTailIfStreaming
         (fun m => { m with
           text := t.currentText ++ (if t.wordIndex > 0 then " " else "") ++ w })
         ms) := by
  obtain ⟨hlt, _⟩ := List.get?_eq_some.mp hw
  have hgd : t.words.getD t.wordIndex "" = w := by
    rw [List.getD_eq_get?, hw]
    rfl
  unfold revealTickTimer
  rw [if_pos hlt, hgd]

theorem revealTickTimer_done (t : RevealTimer) (ms : List Msg)
    (hge : t.words.length ≤ t.wordIndex) :
    revealTickTimer t ms =
      (none,
       mutateTailIfStreaming (fun m => { m with isStreaming := false }) ms) := by
  unfold revealTickTimer
  rw [if_neg (Nat.not_lt.mpr hge)]

theorem applyTick_single (s : ChatState) (t : RevealTimer)
    (ht : s.revealTimers = [t]) :
    applyTick 0 s =
      match revealTickTimer t s.messages with
      | (some t2, ms) => { s with messages := ms, revealTimers := [t2] }
      | (none, ms) => { s with messages := ms, revealTimers := [] } := by
  unfold applyTick
  rw [ht]
  cases hr : revealTickTimer t s.messages with
  | mk t? ms =>
    cases t? with
    | some t2 => simp [hr]
    | none => simp [hr]

theorem list_drop_cons {α : Type} {ws : List α} {i : Nat} {w : α}
    {rs : List α} (h : ws.drop i = w :: rs) :
    ws.get? i = some w ∧ ws.drop (i + 1) = rs := by
  constructor
  · have h1 : (ws.drop i).get? 0 = some w := by rw [h]; rfl
    rwa [List.get?_drop, Nat.add_zero] at h1
  · have h1 : (ws.drop i).drop 1 = rs := by rw [h]; rfl
    rw [List.drop_drop] at h1
    exact h1

/-- Running a live reveal interval to completion: from closure state
`⟨ws, cur, i⟩` with the remaining tokens `rest = ws.drop i` and a
streaming bot tail whose text is `cur`, `rest.length + 1` firings append
every remaining token and finalize the tail, clearing the interval. -/
theorem reveal_run_aux (rest : List String) :
    ∀ (s : ChatState) (ws : List String) (i : Nat) (cur : String)
      (xs : List Msg) (m : Msg),
      s.revealTimers = [{ words := ws, currentText := cur, wordIndex := i }] →
      s.messages = xs ++ [m] →
      ws.drop i = rest →
      msgStreamTarget m = true →
      m.text = cur →
      tickN (rest.length + 1) s =
        { s with
          messages :=
            xs ++ [{ m with text := accumulate cur i rest, isStreaming := false }],
          revealTimers := [] } := by
  induction rest with
  | nil =>
    intro s ws i cur xs m ht hm hdrop htar htext
    have hge : ws.length ≤ i := by
      by_contra hlt
      have := List.drop_eq_nil_iff_le.mp hdrop
      omega
    show tickN 0 (applyTick 0 s) = _
    rw [applyTick_single s _ ht,
      revealTickTimer_done { words := ws, currentText := cur, wordIndex := i }
        s.messages hge]
    simp only [tickN, hm, mutateTail_concat, if_pos htar, accumulate]
    have hmsg : ({ m with isStreaming := false } : Msg) =
        { m with text := cur, isStreaming := false } := by
      rw [← htext]
    rw [hmsg]
  | cons w rs ih =>
    intro s ws i cur xs m ht hm hdrop htar htext
    obtain ⟨hw, hdrop2⟩ := list_drop_cons hdrop
    show tickN (rs.length + 1) (applyTick 0 s) = _
    rw [applyTick_single s _ ht,
      revealTickTimer_mid { words := ws, currentText := cur, wordIndex := i }
        s.messages w hw]
    simp only [hm, mutateTail_concat, if_pos htar]
    rw [ih _ ws (i + 1) (cur ++ (if i > 0 then " " else "") ++ w) xs
      { m with text := cur ++ (if i > 0 then " " else "") ++ w }
      rfl rfl hdrop2 (by simpa [msgStreamTarget] using htar) rfl]
    simp [accumulate]

theorem msgStreamTarget_spec {m : Msg} (h : msgStreamTarget m = true) :
    m.sender = Sender.bot ∧ m.isStreaming = true := by
  unfold msgStreamTarget at h
  cases hs : m.sender with
  | user => rw [hs] at h; simp at h
  | bot => exact ⟨rfl, by rw [hs] at h; simpa using h⟩

theorem tailStreamingBot_not_noStreaming {ms : List Msg}
    (h : tailStreamingBot ms = true) : noStreaming ms = false := by
  unfold tailStreamingBot at h
  cases hl : ms.getLast? with
  | none => rw [hl] at h; simp at h
  | some m =>
    rw [hl] at h
    have hmem : m ∈ ms := List.mem_of_mem_getLast? (by rw [hl]; rfl)
    have hstr : m.isStreaming = true := (msgStreamTarget_spec h).2
    cases hno : noStreaming ms with
    | false => rfl
    | true =>
      exfalso
      have hall := List.all_eq_true.mp hno m hmem
      rw [hstr] at hall
      simp at hall

theorem revealTickTimer_snd_dropLast (t : RevealTimer) (ms : List Msg) :
    ((revealTickTimer t ms).2).dropLast = ms.dropLast := by
  unfold revealTickTimer
  split <;> simp [mutateTail_dropLast]

theorem applyTick_messages_dropLast (i : Nat) (s : ChatState) :
    (applyTick i s).messages.dropLast = s.messages.dropLast := by
  unfold applyTick
  cases h : s.revealTimers.get? i with
  | none => rfl
  | some t =>
    cases hr : revealTickTimer t s.messages with
    | mk t? ms =>
      have h2 : ms.dropLast = s.messages.dropLast := by
        have h3 := revealTickTimer_snd_dropLast t s.messages
        rw [hr] at h3
        exact h3
      cases t? <;> simp [hr, h2]

theorem streamingInvariant_applyTick (i : Nat) (s : ChatState)
    (h : streamingInvariant s.messages = true) :
    streamingInvariant (applyTick i s).messages = true := by
  unfold streamingInvariant at h ⊢
  rw [applyTick_messages_dropLast]
  exact h

theorem countStreaming_le_one {ms : List Msg}
    (h : streamingInvariant ms = true) : countStreaming ms ≤ 1 := by
  cases hl : ms.getLast? with
  | none =>
    rw [List.getLast?_eq_none_iff.mp hl]
    simp [countStreaming]
  | some m =>
    have hne : ms ≠ [] := by
      intro hnil
      rw [hnil] at hl
      simp at hl
    have hdec : ms.dropLast ++ [ms.getLast hne] = ms :=
      List.dropLast_append_getLast hne
    unfold streamingInvariant at h
    have hzero : (ms.dropLast.filter (fun m => m.isStreaming)) = [] := by
      rw [List.filter_eq_nil]
      intro a ha
      have := List.all_eq_true.mp h a ha
      simpa using this
    unfold countStreaming
    rw [← hdec, List.filter_append, List.length_append, hzero]
    simp only [List.length_nil, Nat.zero_add]
    cases hstr : (ms.getLast hne).isStreaming <;> simp [hstr, List.filter]

theorem band_parts {a b : Bool} (h : (a && b) = true) :
    a = true ∧ b = true := by
  simp only [Bool.and_eq_true] at h
  exact h

theorem strongInv_parts {s : ChatState} (hI : strongInv s = true) :
    streamingInvariant s.messages = true ∧ timersOk s = true ∧
      pendingOk s = true := by
  unfold strongInv at hI
  obtain ⟨h1, h3⟩ := band_parts hI
  obtain ⟨h1, h2⟩ := band_parts h1
  exact ⟨h1, h2, h3⟩

theorem strongInv_eq_of (s s' : ChatState)
    (h1 : s'.messages = s.messages) (h2 : s'.revealTimers = s.revealTimers)
    (h3 : s'.pendingChat = s.pendingChat) (h4 : s'.isLoading = s.isLoading) :
    strongInv s' = strongInv s := by
  unfold strongInv timersOk pendingOk streamingInvariant tailStreamingBot
  rw [h1, h2, h3, h4]

theorem strongInv_typeInput (s : ChatState) (v : String)
    (hI : strongInv s = true) :
    strongInv { s with inputValue := v } = true :=
  (strongInv_eq_of s { s with inputValue := v } rfl rfl rfl rfl).trans hI

theorem strongInv_send (s : ChatState) (now : Nat)
    (hI : strongInv s = true) (hE : sendGuard s = true)
    (hS : noStreaming s.messages = true) :
    strongInv (handleSendMessage now s) = true := by
  obtain ⟨hinv, htim, hpend⟩ := strongInv_parts hI
  have htimers : s.revealTimers = [] := by
    cases ht : s.revealTimers with
    | nil => rfl
    | cons t ts =>
      cases ts with
      | nil =>
        unfold timersOk at htim
        rw [ht] at htim
        have htail : tailStreamingBot s.messages = true :=
          (band_parts htim).1
        have hfalse := tailStreamingBot_not_noStreaming htail
        rw [hS] at hfalse
        cases hfalse
      | cons t2 ts2 =>
        unfold timersOk at htim
        rw [ht] at htim
        cases htim
  rw [handleSendMessage, if_pos hE]
  unfold strongInv timersOk pendingOk
  simp only [htimers]
  have hm : streamingInvariant
      (s.messages ++ [userMsg now (jsTrim s.inputValue), typingMsg now]) =
      true := by
    unfold streamingInvariant
    have hsplit : s.messages ++ [userMsg now (jsTrim s.inputValue), typingMsg now]
        = (s.messages ++ [userMsg now (jsTrim s.inputValue)]) ++ [typingMsg now] := by
      simp
    rw [hsplit, List.dropLast_concat, List.all_append]
    rw [Bool.and_eq_true]
    exact ⟨hS, by simp [userMsg]⟩
  simp [hm]

theorem strongInv_chatOk (s : ChatState) (now : Nat) (r : String)
    (srcs : Option (List Source))
    (hI : strongInv s = true) (hE : s.pendingChat = true) :
    strongInv (handleChatSuccess now r srcs s) = true := by
  obtain ⟨hinv, htim, hpend⟩ := strongInv_parts hI
  unfold pendingOk at hpend
  rw [hE] at hpend
  simp only [Bool.not_true, Bool.false_or, Bool.and_eq_true] at hpend
  have htimers : s.revealTimers = [] := List.isEmpty_iff.mp hpend.2
  unfold handleChatSuccess simulateStreamingStart
  unfold strongInv timersOk pendingOk
  simp only [htimers]
  have hm : streamingInvariant
      (s.messages.dropLast ++ [streamMsg now srcs]) = true := by
    unfold streamingInvariant at hinv ⊢
    rw [List.dropLast_concat]
    exact hinv
  have htail : tailStreamingBot (s.messages.dropLast ++ [streamMsg now srcs])
      = true := by
    unfold tailStreamingBot
    rw [List.getLast?_concat]
    rfl
  simp [hm, htail]

theorem strongInv_chatErr (s : ChatState) (now : Nat) (k : FetchErrKind)
    (hI : strongInv s = true) (hE : s.pendingChat = true) :
    strongInv (handleChatFailure now k s) = true := by
  obtain ⟨hinv, htim, hpend⟩ := strongInv_parts hI
  unfold pendingOk at hpend
  rw [hE] at hpend
  simp only [Bool.not_true, Bool.false_or, Bool.and_eq_true] at hpend
  have htimers : s.revealTimers = [] := List.isEmpty_iff.mp hpend.2
  unfold handleChatFailure
  unfold strongInv timersOk pendingOk
  simp only [htimers]
  have hm : streamingInvariant
      (s.messages.filter (fun m => !m.isStreaming) ++ [chatErrorMsg now k])
      = true := by
    unfold streamingInvariant
    rw [List.dropLast_concat, List.all_eq_true]
    intro m hmem
    exact (List.mem_filter.mp hmem).2
  simp [hm]

theorem strongInv_tick (s : ChatState) (i : Nat)
    (hI : strongInv s = true) (hE : i < s.revealTimers.length) :
    strongInv (applyTick i s) = true := by
  obtain ⟨hinv, htim, hpend⟩ := strongInv_parts hI
  cases ht : s.revealTimers with
  | nil => rw [ht] at hE; simp at hE
  | cons t ts =>
    cases ts with
    | cons t2 ts2 =>
      unfold timersOk at htim
      rw [ht] at htim
      cases htim
    | nil =>
      have hi0 : i = 0 := by
        rw [ht] at hE
        simp only [List.length_cons, List.length_nil] at hE
        omega
      subst hi0
      unfold timersOk at htim
      rw [ht] at htim
      obtain ⟨htail, hnp⟩ := band_parts htim
      by_cases hw : t.wordIndex < t.words.length
      · obtain ⟨w, hget⟩ : ∃ w, t.words.get? t.wordIndex = some w :=
          ⟨_, List.get?_eq_get hw⟩
        rw [applyTick_single s t ht,
          revealTickTimer_mid t s.messages w hget]
        unfold strongInv timersOk pendingOk
        have hm : streamingInvariant
            (mutateTailIfStreaming
              (fun m => { m with text := t.currentText ++
                (if t.wordIndex > 0 then " " else "") ++ w }) s.messages)
            = true := by
          unfold streamingInvariant at hinv ⊢
          rw [mutateTail_dropLast]
          exact hinv
        have hne : s.messages ≠ [] := by
          unfold tailStreamingBot at htail
          cases hl : s.messages.getLast? with
          | none => rw [hl] at htail; simp at htail
          | some m0 => intro h0; rw [h0] at hl; simp at hl
        have hms : s.messages.dropLast ++ [s.messages.getLast hne] =
            s.messages := List.dropLast_append_getLast hne
        have htar : msgStreamTarget (s.messages.getLast hne) = true := by
          unfold tailStreamingBot at htail
          rw [List.getLast?_eq_getLast s.messages hne] at htail
          exact htail
        have htail2 : tailStreamingBot
            (mutateTailIfStreaming
              (fun m => { m with text := t.currentText ++
                (if t.wordIndex > 0 then " " else "") ++ w }) s.messages)
            = true := by
          unfold tailStreamingBot
          rw [← hms, mutateTail_concat, if_pos htar, List.getLast?_concat]
          unfold msgStreamTarget at htar ⊢
          exact htar
        simp [hm, htail2, hnp]
      · rw [applyTick_single s t ht,
          revealTickTimer_done t s.messages (Nat.not_lt.mp hw)]
        unfold strongInv timersOk pendingOk
        have hm : streamingInvariant
            (mutateTailIfStreaming (fun m => { m with isStreaming := false })
              s.messages) = true := by
          unfold streamingInvariant at hinv ⊢
          rw [mutateTail_dropLast]
          exact hinv
        simp [hm, hnp]

theorem strongInv_step (s : ChatState) (e : Ev)
    (hI : strongInv s = true) (hE : stepEnabled e s = true)
    (hS : seqOk s e = true) : strongInv (applyEv e s) = true := by
  cases e with
  | typeInput v => exact strongInv_typeInput s v hI
  | send now => exact strongInv_send s now hI hE hS
  | chatOk now r srcs => exact strongInv_chatOk s now r srcs hI hE
  | chatErr now k => exact strongInv_chatErr s now k hI hE
  | tick i => exact strongInv_tick s i hI (of_decide_eq_true hE)

theorem strongInv_trace (es : List Ev) :
    ∀ s0 : ChatState, strongInv s0 = true → validTrace s0 es = true →
      sequenced s0 es = true → strongInv (applyTrace es s0) = true := by
  induction es with
  | nil =>
    intro s0 h0 _ _
    simpa [applyTrace] using h0
  | cons e es ih =>
    intro s0 h0 hv hs
    unfold validTrace at hv
    obtain ⟨he, hv2⟩ := band_parts hv
    unfold sequenced at hs
    obtain ⟨hse, hs2⟩ := band_parts hs
    exact ih (applyEv e s0) (strongInv_step s0 e h0 he hse) hv2 hs2

theorem dropWhile_all_of_all {p : Char → Bool} :
    ∀ l : List Char, (∀ x ∈ l.dropWhile p, p x = true) → ∀ x ∈ l, p x = true := by
  intro l
  induction l with
  | nil => intro _ x hx; cases hx
  | cons c cs ih =>
    intro h x hx
    by_cases hpc : p c = true
    · rw [List.dropWhile_cons, if_pos hpc] at h
      rcases List.mem_cons.mp hx with rfl | hx2
      · exact hpc
      · exact ih h x hx2
    · rw [List.dropWhile_cons, if_neg hpc] at h
      exact h x hx

theorem jsTrim_eq_empty_iff (s : String) :
    jsTrim s = "" ↔ s.data.all Char.isWhitespace = true := by
  unfold jsTrim
  constructor
  · intro h
    have hdata :
        ((s.data.dropWhile Char.isWhitespace).reverse.dropWhile
          Char.isWhitespace).reverse = [] := congrArg String.data h
    rw [List.reverse_eq_nil_iff, List.dropWhile_eq_nil_iff] at hdata
    have h3 : ∀ x ∈ s.data.dropWhile Char.isWhitespace,
        Char.isWhitespace x = true := by
      intro x hx
      exact hdata x (List.mem_reverse.mpr hx)
    rw [List.all_eq_true]
    exact dropWhile_all_of_all s.data h3
  · intro h
    have h1 : s.data.dropWhile Char.isWhitespace = [] :=
      List.dropWhile_eq_nil_iff.mpr (List.all_eq_true.mp h)
    rw [h1]
    rfl

/-- C3.  `send` is a no-op, leaving the whole state unchanged, exactly
when the input is empty or whitespace-only, or a send is in flight
(`isLoading`), or no session identifier exists, or connectivity is false
— and conversely, when all four preconditions hold it changes the state
(it appends messages). -/
theorem c3_send_noop_iff (s : ChatState) (now : Nat) :
    handleSendMessage now s = s ↔
      (s.inputValue.data.all Char.isWhitespace = true ∨ s.isLoading = true ∨
        s.sessionId = none ∨ s.isConnected = false) := by
  constructor
  · intro h
    by_contra hcon
    push_neg at hcon
    obtain ⟨h1, h2, h3, h4⟩ := hcon
    have hg : sendGuard s = true := by
      unfold sendGuard
      have e1 : (jsTrim s.inputValue == "") = false := by
        rw [beq_eq_false_iff_ne]
        intro he
        exact h1 ((jsTrim_eq_empty_iff s.inputValue).mp he)
      have e2 : s.isLoading = false := Bool.not_eq_true _ |>.mp h2
      have e3 : s.sessionId.isSome = true := Option.isSome_iff_ne_none.mpr h3
      have e4 : s.isConnected = true := Bool.eq_true_of_ne_false h4
      rw [e1, e2, e3, e4]
      rfl
    rw [handleSendMessage, if_pos hg] at h
    have hmsg := congrArg ChatState.messages h
    simp only [] at hmsg
    have hlen := congrArg List.length hmsg
    simp [List.length_append] at hlen
  · intro h
    have hg : sendGuard s = false := by
      unfold sendGuard
      rcases h with h | h | h | h
      · have : jsTrim s.inputValue = "" := (jsTrim_eq_empty_iff s.inputValue).mpr h
        simp [this]
      · simp [h]
      · simp [h]
      · simp [h]
    rw [handleSendMessage, if_neg]
    rw [hg]
    exact Bool.false_ne_true

/-- A live, connected component state with an empty transcript and the
input buffer holding `"hi"`: the state after a successful bootstrap,
specialized to concrete values for concrete-input theorems. -/
def initSt : ChatState :=
  { sessionId := some "s", isConnected := true, messages := [],
    inputValue := "hi", isLoading := false, isInitializing := false,
    isFirstLoad := false, error := none, storedSessionId := some "s",
    pendingChat := false, revealTimers := [] }

/-- C5, counterexample.  After a network-failure probe from the connected
state the monitor is disconnected with the standing
"Cannot reach backend service" error; a second consecutive failed probe of
the non-2xx kind then *changes* the error message (the non-2xx branch sets
state unconditionally), contradicting the claim that a second consecutive
failed probe of any kind changes neither the flag nor the message. -/
theorem c5_counterexample :
    (checkConnection FetchOutcome.netErr initSt).isConnected = false ∧
    (checkConnection FetchOutcome.netErr initSt).error =
      some "Cannot reach backend service" ∧
    (checkConnection FetchOutcome.httpErr
        (checkConnection FetchOutcome.netErr initSt)).error =
      some "Backend service returned an error" ∧
    ¬ (checkConnection FetchOutcome.httpErr
        (checkConnection FetchOutcome.netErr initSt)).error =
      (checkConnection FetchOutcome.netErr initSt).error := by
  refine ⟨rfl, rfl, rfl, ?_⟩
  intro h
  exact absurd h (by decide)

/-- C5, amended.  A second consecutive failed probe of the *same* kind
leaves the state unchanged; for failures that reach the catch block
(network error or abort) the transition to disconnected and the setting of
the standing error happen only when the status was previously connected
(a failed probe while already disconnected is a no-op); a non-2xx
response, however, sets disconnected and its error message
unconditionally. -/
theorem c5_amended_idempotent_failure (s : ChatState) (p : FetchOutcome)
    (hfail : p ≠ FetchOutcome.ok) :
    checkConnection p (checkConnection p s) = checkConnection p s ∧
    ((p = FetchOutcome.netErr ∨ p = FetchOutcome.abortErr) →
      s.isConnected = false → checkConnection p s = s) ∧
    (p = FetchOutcome.httpErr →
      checkConnection p s =
        { s with isConnected := false,
                 error := some "Backend service returned an error" }) := by
  cases p with
  | ok => exact absurd rfl hfail
  | httpErr =>
    refine ⟨rfl, ?_, fun _ => rfl⟩
    intro h
    rcases h with h | h <;> cases h
  | netErr =>
    refine ⟨?_, ?_, ?_⟩
    · unfold checkConnection
      cases hc : s.isConnected with
      | true => simp
      | false => simp [hc]
    · intro _ hc
      unfold checkConnection
      rw [hc]
      simp
    · intro h
      cases h
  | abortErr =>
    refine ⟨?_, ?_, ?_⟩
    · unfold checkConnection
      cases hc : s.isConnected with
      | true => simp
      | false => simp [hc]
    · intro _ hc
      unfold checkConnection
      rw [hc]
      simp
    · intro h
      cases h

/-- C5, witness for the amended theorem at a concrete input. -/
theorem c5_amended_witness :
    checkConnection FetchOutcome.netErr
        (checkConnection FetchOutcome.netErr initSt) =
      checkConnection FetchOutcome.netErr initSt ∧
    ((FetchOutcome.netErr = FetchOutcome.netErr ∨
        FetchOutcome.netErr = FetchOutcome.abortErr) →
      initSt.isConnected = false →
      checkConnection FetchOutcome.netErr initSt = initSt) ∧
    (FetchOutcome.netErr = FetchOutcome.httpErr →
      checkConnection FetchOutcome.netErr initSt =
        { initSt with isConnected := false,
                      error := some "Backend service returned an error" }) :=
  c5_amended_idempotent_failure initSt FetchOutcome.netErr (by decide)

/-- C8.  Resetting while a session exists and connectivity is true, with
the backend delete succeeding, replaces the transcript with exactly one
welcome message and leaves the session identifier unchanged both in
component state and in persistent storage. -/
theorem c8_reset_success (s : ChatState) (now : Nat)
    (hs : s.sessionId.isSome = true) (hc : s.isConnected = true) :
    (handleResetSession FetchOutcome.ok now s).messages =
      [resetWelcomeMsg now] ∧
    (handleResetSession FetchOutcome.ok now s).sessionId = s.sessionId ∧
    (handleResetSession FetchOutcome.ok now s).storedSessionId =
      s.storedSessionId := by
  unfold handleResetSession
  have hguard : (s.sessionId.isNone || !s.isConnected) = false := by
    cases hsid : s.sessionId with
    | none => rw [hsid] at hs; cases hs
    | some v => simp [hc]
  rw [hguard]
  exact ⟨rfl, rfl, rfl⟩

/-- C8, witness at a concrete input. -/
theorem c8_reset_success_witness :
    (handleResetSession FetchOutcome.ok 3 initSt).messages =
      [resetWelcomeMsg 3] ∧
    (handleResetSession FetchOutcome.ok 3 initSt).sessionId =
      initSt.sessionId ∧
    (handleResetSession FetchOutcome.ok 3 initSt).storedSessionId =
      initSt.storedSessionId :=
  c8_reset_success initSt 3 (by decide) (by decide)

/-- C10.  When the reset request fails or times out (reached with a
session, connectivity true and no send in flight), the transcript is left
completely unchanged and the resulting state differs only in the
connectivity flag (now false) and the standing error string. -/
theorem c10_reset_failure_frame (s : ChatState) (now : Nat)
    (out : FetchOutcome) (hfail : out ≠ FetchOutcome.ok)
    (hs : s.sessionId.isSome = true) (hc : s.isConnected = true)
    (hl : s.isLoading = false) :
    handleResetSession out now s =
      { s with isConnected := false, error := some (resetErrText out) } := by
  unfold handleResetSession
  have hguard : (s.sessionId.isNone || !s.isConnected) = false := by
    cases hsid : s.sessionId with
    | none => rw [hsid] at hs; cases hs
    | some v => simp [hc]
  rw [hguard]
  cases out with
  | ok => exact absurd rfl hfail
  | httpErr => simp [hl]
  | abortErr => simp [hl]
  | netErr => simp [hl]

/-- C10, witness at a concrete input. -/
theorem c10_reset_failure_witness :
    handleResetSession FetchOutcome.abortErr 3 initSt =
      { initSt with isConnected := false,
                    error := some (resetErrText FetchOutcome.abortErr) } :=
  c10_reset_failure_frame initSt 3 FetchOutcome.abortErr (by decide)
    (by decide) (by decide) (by decide)

theorem tick_mid_step (s : ChatState) (ws : List String) (i : Nat)
    (cur w : String) (xs : List Msg) (m : Msg)
    (ht : s.revealTimers = [{ words := ws, currentText := cur, wordIndex := i }])
    (hm : s.messages = xs ++ [m])
    (hw : ws.get? i = some w) (htar : msgStreamTarget m = true) :
    applyTick 0 s =
      { s with
        messages :=
          xs ++ [{ m with text := cur ++ (if i > 0 then " " else "") ++ w }],
        revealTimers := [{ words := ws, currentText := cur ++ (if i > 0 then " " else "") ++ w, wordIndex := i + 1 }] } := by
  rw [applyTick_single s _ ht,
    revealTickTimer_mid { words := ws, currentText := cur, wordIndex := i }
      s.messages w hw]
  dsimp only
  rw [hm, mutateTail_concat, if_pos htar]

theorem tick_done_step (s : ChatState) (ws : List String) (i : Nat)
    (cur : String) (xs : List Msg) (m : Msg)
    (ht : s.revealTimers = [{ words := ws, currentText := cur, wordIndex := i }])
    (hm : s.messages = xs ++ [m])
    (hge : ws.length ≤ i) (htar : msgStreamTarget m = true) :
    applyTick 0 s =
      { s with
        messages := xs ++ [{ m with isStreaming := false }],
        revealTimers := [] } := by
  rw [applyTick_single s _ ht,
    revealTickTimer_done { words := ws, currentText := cur, wordIndex := i }
      s.messages hge]
  dsimp only
  rw [hm, mutateTail_concat, if_pos htar]

/-- C6.  Revealing `"a b c"` with sources `[]` replaces the tail with a
streaming message carrying `sources = []` and empty text, then over
successive interval firings shows `"a"`, `"a b"`, `"a b c"` in that
order; the fourth firing flips the streaming flag to false, keeps the
sources `[]`, and stops (removes) the timer. -/
theorem c6_reveal_trace (s : ChatState) (now : Nat)
    (ht : s.revealTimers = []) :
    (simulateStreamingStart now "a b c" (some []) s).messages =
      s.messages.dropLast ++ [streamMsg now (some [])] ∧
    (tickN 1 (simulateStreamingStart now "a b c" (some []) s)).messages =
      s.messages.dropLast ++ [{ streamMsg now (some []) with text := "a" }] ∧
    (tickN 2 (simulateStreamingStart now "a b c" (some []) s)).messages =
      s.messages.dropLast ++ [{ streamMsg now (some []) with text := "a b" }] ∧
    (tickN 3 (simulateStreamingStart now "a b c" (some []) s)).messages =
      s.messages.dropLast ++
        [{ streamMsg now (some []) with text := "a b c" }] ∧
    (tickN 4 (simulateStreamingStart now "a b c" (some []) s)).messages =
      s.messages.dropLast ++
        [{ streamMsg now (some []) with text := "a b c", isStreaming := false }] ∧
    (tickN 4 (simulateStreamingStart now "a b c" (some []) s)).revealTimers
      = [] := by
  have h0t : (simulateStreamingStart now "a b c" (some []) s).revealTimers =
      [{ words := ["a", "b", "c"], currentText := "", wordIndex := 0 }] := by
    show s.revealTimers ++ _ = _
    rw [ht]
    rfl
  have e1 : applyTick 0 (simulateStreamingStart now "a b c" (some []) s) =
      { simulateStreamingStart now "a b c" (some []) s with
        messages := s.messages.dropLast ++
          [{ streamMsg now (some []) with text := "a" }],
        revealTimers :=
          [{ words := ["a", "b", "c"], currentText := "a", wordIndex := 1 }] } :=
    tick_mid_step _ ["a", "b", "c"] 0 "" "a" s.messages.dropLast
      (streamMsg now (some [])) h0t rfl rfl rfl
  have e2 : applyTick 0 (applyTick 0
        (simulateStreamingStart now "a b c" (some []) s)) =
      { simulateStreamingStart now "a b c" (some []) s with
        messages := s.messages.dropLast ++
          [{ streamMsg now (some []) with text := "a b" }],
        revealTimers :=
          [{ words := ["a", "b", "c"], currentText := "a b", wordIndex := 2 }] } := by
    rw [e1]
    exact tick_mid_step _ ["a", "b", "c"] 1 "a" "b" s.messages.dropLast
      { streamMsg now (some []) with text := "a" } rfl rfl rfl rfl
  have e3 : applyTick 0 (applyTick 0 (applyTick 0
        (simulateStreamingStart now "a b c" (some []) s))) =
      { simulateStreamingStart now "a b c" (some []) s with
        messages := s.messages.dropLast ++
          [{ streamMsg now (some []) with text := "a b c" }],
        revealTimers :=
          [{ words := ["a", "b", "c"], currentText := "a b c", wordIndex := 3 }] } := by
    rw [e2]
    exact tick_mid_step _ ["a", "b", "c"] 2 "a b" "c" s.messages.dropLast
      { streamMsg now (some []) with text := "a b" } rfl rfl rfl rfl
  have e4 : applyTick 0 (applyTick 0 (applyTick 0 (applyTick 0
        (simulateStreamingStart now "a b c" (some []) s)))) =
      { simulateStreamingStart now "a b c" (some []) s with
        messages := s.messages.dropLast ++
          [{ streamMsg now (some []) with text := "a b c", isStreaming := false }],
        revealTimers := [] } := by
    rw [e3]
    exact tick_done_step _ ["a", "b", "c"] 3 "a b c" s.messages.dropLast
      { streamMsg now (some []) with text := "a b c" } rfl rfl
      (by decide) rfl
  refine ⟨rfl, ?_, ?_, ?_, ?_, ?_⟩
  · show (applyTick 0 (simulateStreamingStart now "a b c" (some []) s)).messages = _
    rw [e1]
  · show (applyTick 0 (applyTick 0
        (simulateStreamingStart now "a b c" (some []) s))).messages = _
    rw [e2]
  · show (applyTick 0 (applyTick 0 (applyTick 0
        (simulateStreamingStart now "a b c" (some []) s)))).messages = _
    rw [e3]
  · show (applyTick 0 (applyTick 0 (applyTick 0 (applyTick 0
        (simulateStreamingStart now "a b c" (some []) s))))).messages = _
    rw [e4]
  · show (applyTick 0 (applyTick 0 (applyTick 0 (applyTick 0
        (simulateStreamingStart now "a b c" (some []) s))))).revealTimers = _
    rw [e4]

/-- C6, witness at a concrete input. -/
theorem c6_reveal_trace_witness :
    (simulateStreamingStart 9 "a b c" (some []) initSt).messages =
      initSt.messages.dropLast ++ [streamMsg 9 (some [])] ∧
    (tickN 1 (simulateStreamingStart 9 "a b c" (some []) initSt)).messages =
      initSt.messages.dropLast ++
        [{ streamMsg 9 (some []) with text := "a" }] ∧
    (tickN 2 (simulateStreamingStart 9 "a b c" (some []) initSt)).messages =
      initSt.messages.dropLast ++
        [{ streamMsg 9 (some []) with text := "a b" }] ∧
    (tickN 3 (simulateStreamingStart 9 "a b c" (some []) initSt)).messages =
      initSt.messages.dropLast ++
        [{ streamMsg 9 (some []) with text := "a b c" }] ∧
    (tickN 4 (simulateStreamingStart 9 "a b c" (some []) initSt)).messages =
      initSt.messages.dropLast ++
        [{ streamMsg 9 (some []) with text := "a b c", isStreaming := false }] ∧
    (tickN 4 (simulateStreamingStart 9 "a b c" (some []) initSt)).revealTimers
      = [] :=
  c6_reveal_trace initSt 9 rfl

/-- C7, counterexample.  Calling the reveal engine with the empty string
does *not* finalize immediately: right after the call (zero ticks) the
tail message is still a streaming bot message and an interval is running;
after one tick it is still streaming (JavaScript `"".split(' ')` is
`[""]`, so the first tick appends the empty token); only the second tick
finalizes it.  The concrete state is reached by a send whose chat request
resolves with an empty response. -/
theorem c7_counterexample :
    (simulateStreamingStart 5 "" none
        (applyTrace [Ev.send 1] initSt)).revealTimers.length = 1 ∧
    tailStreamingBot
      (simulateStreamingStart 5 "" none
        (applyTrace [Ev.send 1] initSt)).messages = true ∧
    tailStreamingBot
      (tickN 1 (simulateStreamingStart 5 "" none
        (applyTrace [Ev.send 1] initSt))).messages = true ∧
    (tickN 1 (simulateStreamingStart 5 "" none
        (applyTrace [Ev.send 1] initSt))).revealTimers.length = 1 := by
  decide

/-- C7, amended.  Reveal of the empty string finalizes after exactly two
interval firings (not immediately): `"".split(' ')` is `[""]`, so one
tick appends the empty token and the next finalizes; the run ends with
empty text, streaming flag false, and the timer stopped. -/
theorem c7_amended_empty_reveal (s : ChatState) (now : Nat)
    (srcs : Option (List Source)) (ht : s.revealTimers = []) :
    (tickN 2 (simulateStreamingStart now "" srcs s)).messages =
      s.messages.dropLast ++
        [{ streamMsg now srcs with isStreaming := false }] ∧
    (tickN 2 (simulateStreamingStart now "" srcs s)).revealTimers = [] := by
  have h0t : (simulateStreamingStart now "" srcs s).revealTimers =
      [{ words := [""], currentText := "", wordIndex := 0 }] := by
    show s.revealTimers ++ _ = _
    rw [ht]
    rfl
  have hrun := reveal_run_aux [""] (simulateStreamingStart now "" srcs s)
    [""] 0 "" s.messages.dropLast (streamMsg now srcs) h0t rfl rfl rfl rfl
  constructor
  · show (tickN 2 (simulateStreamingStart now "" srcs s)).messages = _
    rw [show (2 : Nat) = List.length [""] + 1 from rfl, hrun]
    rfl
  · show (tickN 2 (simulateStreamingStart now "" srcs s)).revealTimers = _
    rw [show (2 : Nat) = List.length [""] + 1 from rfl, hrun]

/-- C7, witness for the amended theorem at a concrete input. -/
theorem c7_amended_empty_reveal_witness :
    (tickN 2 (simulateStreamingStart 5 "" none initSt)).messages =
      initSt.messages.dropLast ++
        [{ streamMsg 5 none with isStreaming := false }] ∧
    (tickN 2 (simulateStreamingStart 5 "" none initSt)).revealTimers = [] :=
  c7_amended_empty_reveal initSt 5 none rfl

/-- C9.  For every response string `fullText`, a completed reveal run
leaves the tail message's text exactly equal to `fullText`: splitting on
single spaces and re-accumulating the tokens with single spaces is the
identity, so no character (including runs of spaces) is lost or
normalized. -/
theorem c9_reveal_identity (s : ChatState) (now : Nat) (fullText : String)
    (srcs : Option (List Source)) (ht : s.revealTimers = []) :
    (tickN ((jsSplit fullText).length + 1)
        (simulateStreamingStart now fullText srcs s)).messages =
      s.messages.dropLast ++
        [{ streamMsg now srcs with text := fullText, isStreaming := false }] ∧
    (tickN ((jsSplit fullText).length + 1)
        (simulateStreamingStart now fullText srcs s)).revealTimers = [] := by
  have h0t : (simulateStreamingStart now fullText srcs s).revealTimers =
      [{ words := jsSplit fullText, currentText := "", wordIndex := 0 }] := by
    show s.revealTimers ++ _ = _
    rw [ht]
    rfl
  have hrun := reveal_run_aux (jsSplit fullText)
    (simulateStreamingStart now fullText srcs s)
    (jsSplit fullText) 0 "" s.messages.dropLast (streamMsg now srcs) h0t rfl
    (List.drop_zero _) rfl rfl
  rw [accumulate_jsSplit] at hrun
  constructor
  · show (tickN ((jsSplit fullText).length + 1)
        (simulateStreamingStart now fullText srcs s)).messages = _
    rw [hrun]
  · show (tickN ((jsSplit fullText).length + 1)
        (simulateStreamingStart now fullText srcs s)).revealTimers = _
    rw [hrun]


/-- C9, witness at a concrete input (a response with a double space,
which the reveal reproduces exactly). -/
theorem c9_reveal_identity_witness :
    (tickN ((jsSplit "a  b").length + 1)
        (simulateStreamingStart 7 "a  b" none initSt)).messages =
      initSt.messages.dropLast ++
        [{ streamMsg 7 none with text := "a  b", isStreaming := false }] ∧
    (tickN ((jsSplit "a  b").length + 1)
        (simulateStreamingStart 7 "a  b" none initSt)).revealTimers = [] :=
  c9_reveal_identity initSt 7 "a  b" none rfl

theorem streamingInvariant_tickN (j : Nat) :
    ∀ s : ChatState, streamingInvariant s.messages = true →
      streamingInvariant (tickN j s).messages = true := by
  induction j with
  | zero => intro s h; exact h
  | succ j ih =>
    intro s h
    exact ih (applyTick 0 s) (streamingInvariant_applyTick 0 s h)

/-- C2, counterexample.  A reachable state satisfying every precondition
of the claim — non-blank input, a session, connectivity true, no send in
flight (`isLoading` and the request flag both false) — in which a send
produces *two* streaming placeholders at once: the state still has the
previous reveal's streaming tail (its interval is still ticking), because
`isLoading` is cleared in the dispatcher's `finally` as soon as the reveal
starts, so the claim's "never more than one streaming placeholder at a
time" fails. -/
theorem c2_counterexample :
    validTrace initSt
      [Ev.send 1, Ev.chatOk 2 "a b c" none, Ev.typeInput "yo"] = true ∧
    (jsTrim (applyTrace [Ev.send 1, Ev.chatOk 2 "a b c" none,
        Ev.typeInput "yo"] initSt).inputValue == "") = false ∧
    (applyTrace [Ev.send 1, Ev.chatOk 2 "a b c" none, Ev.typeInput "yo"]
        initSt).isLoading = false ∧
    (applyTrace [Ev.send 1, Ev.chatOk 2 "a b c" none, Ev.typeInput "yo"]
        initSt).pendingChat = false ∧
    (applyTrace [Ev.send 1, Ev.chatOk 2 "a b c" none, Ev.typeInput "yo"]
        initSt).sessionId.isSome = true ∧
    (applyTrace [Ev.send 1, Ev.chatOk 2 "a b c" none, Ev.typeInput "yo"]
        initSt).isConnected = true ∧
    countStreaming (handleSendMessage 3
      (applyTrace [Ev.send 1, Ev.chatOk 2 "a b c" none, Ev.typeInput "yo"]
        initSt)).messages = 2 := by
  decide

/-- C2, amended.  For a send from a state that additionally has no
streaming message in the transcript and no live reveal interval (i.e. the
previous reveal has fully finished — the spec's expected sequencing), the
claim holds: the send appends exactly one user message and the
placeholder; the failure continuation leaves exactly one terminal
(error) bot message after the user message; the success continuation,
once its reveal runs to completion, leaves exactly one terminal
(revealed) bot message whose text is the full response; and every
intermediate state of the lifecycle has at most one streaming
placeholder. -/
theorem c2_amended_send_lifecycle (s : ChatState) (now now2 : Nat)
    (hg : sendGuard s = true) (hq : noStreaming s.messages = true)
    (ht : s.revealTimers = []) (hp : s.pendingChat = false) :
    (handleSendMessage now s).messages =
      s.messages ++ [userMsg now (jsTrim s.inputValue), typingMsg now] ∧
    countStreaming (handleSendMessage now s).messages ≤ 1 ∧
    (∀ k : FetchErrKind,
      (handleChatFailure now2 k (handleSendMessage now s)).messages =
        s.messages ++
          [userMsg now (jsTrim s.inputValue), chatErrorMsg now2 k] ∧
      noStreaming
        (handleChatFailure now2 k (handleSendMessage now s)).messages =
        true) ∧
    (∀ (resp : String) (srcs : Option (List Source)),
      (tickN ((jsSplit resp).length + 1)
          (handleChatSuccess now2 resp srcs
            (handleSendMessage now s))).messages =
        s.messages ++ [userMsg now (jsTrim s.inputValue),
          { streamMsg now2 srcs with text := resp, isStreaming := false }] ∧
      (tickN ((jsSplit resp).length + 1)
          (handleChatSuccess now2 resp srcs
            (handleSendMessage now s))).revealTimers = [] ∧
      (∀ j : Nat, countStreaming
          (tickN j (handleChatSuccess now2 resp srcs
            (handleSendMessage now s))).messages ≤ 1)) := by
  have hsend : handleSendMessage now s =
      { s with
        messages :=
          s.messages ++ [userMsg now (jsTrim s.inputValue), typingMsg now],
        inputValue := "",
        isLoading := true,
        error := none,
        pendingChat := true } := by
    rw [handleSendMessage, if_pos hg]
  have hassoc : s.messages ++ [userMsg now (jsTrim s.inputValue), typingMsg now]
      = (s.messages ++ [userMsg now (jsTrim s.inputValue)]) ++ [typingMsg now] := by
    simp
  have hinv1 : streamingInvariant (handleSendMessage now s).messages = true := by
    rw [hsend]
    show streamingInvariant
      (s.messages ++ [userMsg now (jsTrim s.inputValue), typingMsg now]) = true
    unfold streamingInvariant
    rw [hassoc, List.dropLast_concat, List.all_append, Bool.and_eq_true]
    exact ⟨hq, by simp [userMsg]⟩
  refine ⟨by rw [hsend], countStreaming_le_one hinv1, ?_, ?_⟩
  · intro k
    have hfs : s.messages.filter (fun m => !m.isStreaming) = s.messages :=
      List.filter_eq_self.mpr (fun a ha => List.all_eq_true.mp hq a ha)
    have hfm : (handleChatFailure now2 k (handleSendMessage now s)).messages =
        s.messages ++
          [userMsg now (jsTrim s.inputValue), chatErrorMsg now2 k] := by
      rw [hsend]
      show (s.messages ++
          [userMsg now (jsTrim s.inputValue), typingMsg now]).filter
            (fun m => !m.isStreaming) ++ [chatErrorMsg now2 k] = _
      rw [List.filter_append, hfs]
      show s.messages ++ [userMsg now (jsTrim s.inputValue)] ++
          [chatErrorMsg now2 k] = _
      simp
    refine ⟨hfm, ?_⟩
    rw [hfm]
    unfold noStreaming
    have hassoc2 : s.messages ++
        [userMsg now (jsTrim s.inputValue), chatErrorMsg now2 k]
        = s.messages ++ ([userMsg now (jsTrim s.inputValue)] ++
            [chatErrorMsg now2 k]) := by
      simp
    rw [hassoc2, List.all_append, Bool.and_eq_true]
    exact ⟨hq, rfl⟩
  · intro resp srcs
    have hs2m : (handleChatSuccess now2 resp srcs
        (handleSendMessage now s)).messages =
        (s.messages ++ [userMsg now (jsTrim s.inputValue)]) ++
          [streamMsg now2 srcs] := by
      rw [hsend]
      show (s.messages ++
          [userMsg now (jsTrim s.inputValue), typingMsg now]).dropLast ++
            [streamMsg now2 srcs] = _
      rw [hassoc, List.dropLast_concat]
    have hs2t : (handleChatSuccess now2 resp srcs
        (handleSendMessage now s)).revealTimers =
        [{ words := jsSplit resp, currentText := "", wordIndex := 0 }] := by
      rw [hsend]
      show s.revealTimers ++ _ = _
      rw [ht]
      rfl
    have hrun := reveal_run_aux (jsSplit resp)
      (handleChatSuccess now2 resp srcs (handleSendMessage now s))
      (jsSplit resp) 0 "" (s.messages ++ [userMsg now (jsTrim s.inputValue)])
      (streamMsg now2 srcs) hs2t hs2m (List.drop_zero _) rfl rfl
    rw [accumulate_jsSplit] at hrun
    refine ⟨?_, ?_, ?_⟩
    · rw [hrun]
      show (s.messages ++ [userMsg now (jsTrim s.inputValue)]) ++
          [{ streamMsg now2 srcs with text := resp, isStreaming := false }] = _
      simp
    · rw [hrun]
    · intro j
      have hinv2 : streamingInvariant (handleChatSuccess now2 resp srcs
          (handleSendMessage now s)).messages = true := by
        rw [hs2m]
        unfold streamingInvariant
        rw [List.dropLast_concat, List.all_append, Bool.and_eq_true]
        exact ⟨hq, by simp [userMsg]⟩
      exact countStreaming_le_one (streamingInvariant_tickN j _ hinv2)

/-- C2, witness for the amended theorem at a concrete input. -/
theorem c2_amended_send_lifecycle_witness :
    (handleSendMessage 1 initSt).messages =
      initSt.messages ++ [userMsg 1 (jsTrim initSt.inputValue), typingMsg 1] ∧
    countStreaming (handleSendMessage 1 initSt).messages ≤ 1 ∧
    (tickN ((jsSplit "ok done").length + 1)
        (handleChatSuccess 2 "ok done" none
          (handleSendMessage 1 initSt))).messages =
      initSt.messages ++ [userMsg 1 (jsTrim initSt.inputValue),
        { streamMsg 2 none with text := "ok done", isStreaming := false }] := by
  have h := c2_amended_send_lifecycle initSt 1 2 (by decide) (by decide)
    rfl rfl
  exact ⟨h.1, h.2.1, (h.2.2.2 "ok done" none).1⟩

/-- The exception one whole `initializeSession` attempt raises, as a
function of the cached identifier and the attempt's fetch outcomes
(`none` = the attempt succeeds): the health probe's exception, else — when
no cached identifier exists — the session-creation call's exception. -/
def initFailKind (saved : Option String) (env : InitEnv) :
    Option InitException :=
  match fetchExcept env.health with
  | some e => some e
  | none =>
    match saved with
    | some _ => none
    | none => fetchExcept env.createSession

/-- The bootstrap-time component state with a cached session identifier:
what `ChatUI` holds when `initializeSession` first runs. -/
def bootState : ChatState :=
  { sessionId := none, isConnected := false, messages := [],
    inputValue := "", isLoading := false, isInitializing := true,
    isFirstLoad := true, error := none, storedSessionId := some "cached-id",
    pendingChat := false, revealTimers := [] }

/-- A bootstrap attempt whose health probe times out (`AbortError`). -/
def coldEnv : InitEnv :=
  { health := FetchOutcome.abortErr, createSession := FetchOutcome.ok,
    newSessionId := "n", history := [], now := 7 }

/-- C4, counterexample.  The first cold-start timeout schedules a retry —
but a timeout failure of that retry schedules *another* retry instead of
being terminal: `isFirstLoad` is only cleared on success, so after two
consecutive timeout failures the retry flag is still set, the cached
identifier has not been cleared, and the transcript holds no
locally-synthesized error message — contradicting "a failure of that
retry is terminal" and "at most one retry is ever performed". -/
theorem c4_counterexample :
    (initializeSession coldEnv bootState).2 = true ∧
    (initializeSession coldEnv
      (initializeSession coldEnv bootState).1).2 = true ∧
    (initializeSession coldEnv
      (initializeSession coldEnv bootState).1).1.storedSessionId =
      some "cached-id" ∧
    (initializeSession coldEnv
      (initializeSession coldEnv bootState).1).1.messages = [] := by
  decide

/-- C4, amended.  While no bootstrap has yet succeeded (`isFirstLoad`
still true), *every* timeout failure — not only the first — schedules a
delayed retry of the whole bootstrap, surfacing the transient
informational status and leaving the cached identifier and transcript
untouched; a failure of any other kind, or any failure once
`isFirstLoad` is false, is terminal: the cached identifier is cleared
(in state and storage), the transcript is replaced with the single
locally-synthesized error message, a persistent error status is
surfaced, and no retry is scheduled.  "At most one retry" does not hold:
retries repeat on every consecutive timeout. -/
theorem c4_amended_bootstrap_retry (s : ChatState) (env : InitEnv) :
    (s.isFirstLoad = true →
      initFailKind s.storedSessionId env = some InitException.abortError →
      initializeSession env s =
        ({ s with isInitializing := false, isConnected := false, error := some initTransientError }, true)) ∧
    (∀ e : InitException, initFailKind s.storedSessionId env = some e →
      (s.isFirstLoad = false ∨ e = InitException.otherError) →
      initializeSession env s =
        ({ s with isInitializing := false, isConnected := false, sessionId := none, storedSessionId := none, messages := [initErrorMsg env.now], error := some (initTerminalError e) }, false)) := by
  constructor
  · intro hfl hfail
    cases hh : env.health with
    | ok =>
      cases hsv : s.storedSessionId with
      | some sid =>
        unfold initFailKind at hfail
        rw [hh, hsv] at hfail
        simp [fetchExcept] at hfail
      | none =>
        unfold initFailKind at hfail
        rw [hh, hsv] at hfail
        simp only [fetchExcept] at hfail
        cases hc : env.createSession <;> rw [hc] at hfail <;>
          simp [fetchExcept] at hfail
        · unfold initializeSession initTry
          simp [hh, hsv, hc, fetchExcept, hfl, initTransientError]
    | httpErr =>
      unfold initFailKind at hfail
      rw [hh] at hfail
      simp [fetchExcept] at hfail
    | abortErr =>
      unfold initializeSession initTry
      simp [hh, fetchExcept, hfl, initTransientError]
    | netErr =>
      unfold initFailKind at hfail
      rw [hh] at hfail
      simp [fetchExcept] at hfail
  · intro e hfail hterm
    cases hh : env.health with
    | ok =>
      cases hsv : s.storedSessionId with
      | some sid =>
        exfalso
        unfold initFailKind at hfail
        rw [hh, hsv] at hfail
        simp [fetchExcept] at hfail
      | none =>
        cases hc : env.createSession with
        | ok =>
          exfalso
          unfold initFailKind at hfail
          rw [hh, hsv, hc] at hfail
          simp [fetchExcept] at hfail
        | httpErr =>
          have he : e = InitException.otherError := by
            unfold initFailKind at hfail
            rw [hh, hsv, hc] at hfail
            simp only [fetchExcept, Option.some.injEq] at hfail
            exact hfail.symm
          subst he
          unfold initializeSession initTry
          simp [hh, hsv, hc, fetchExcept]
        | abortErr =>
          have he : e = InitException.abortError := by
            unfold initFailKind at hfail
            rw [hh, hsv, hc] at hfail
            simp only [fetchExcept, Option.some.injEq] at hfail
            exact hfail.symm
          subst he
          have hfl : s.isFirstLoad = false := by
            rcases hterm with h | h
            · exact h
            · cases h
          unfold initializeSession initTry
          simp [hh, hsv, hc, fetchExcept, hfl]
        | netErr =>
          have he : e = InitException.otherError := by
            unfold initFailKind at hfail
            rw [hh, hsv, hc] at hfail
            simp only [fetchExcept, Option.some.injEq] at hfail
            exact hfail.symm
          subst he
          unfold initializeSession initTry
          simp [hh, hsv, hc, fetchExcept]
    | httpErr =>
      have he : e = InitException.otherError := by
        unfold initFailKind at hfail
        rw [hh] at hfail
        simp only [fetchExcept, Option.some.injEq] at hfail
        exact hfail.symm
      subst he
      unfold initializeSession initTry
      simp [hh, fetchExcept]
    | abortErr =>
      have he : e = InitException.abortError := by
        unfold initFailKind at hfail
        rw [hh] at hfail
        simp only [fetchExcept, Option.some.injEq] at hfail
        exact hfail.symm
      subst he
      have hfl : s.isFirstLoad = false := by
        rcases hterm with h | h
        · exact h
        · cases h
      unfold initializeSession initTry
      simp [hh, fetchExcept, hfl]
    | netErr =>
      have he : e = InitException.otherError := by
        unfold initFailKind at hfail
        rw [hh] at hfail
        simp only [fetchExcept, Option.some.injEq] at hfail
        exact hfail.symm
      subst he
      unfold initializeSession initTry
      simp [hh, fetchExcept]

/-- C1, counterexample.  A valid event trace from a sane state (the
inductive invariant holds at the start) that violates the claimed
transcript invariant: send, chat success (reveal starts), type new input,
send again while the reveal is still ticking — the busy guard does not
prevent this because `isLoading` is cleared in the dispatcher's `finally`
as soon as the reveal timer starts.  The resulting transcript has two
streaming messages, and a streaming message that is not the last
element. -/
theorem c1_counterexample :
    strongInv initSt = true ∧
    validTrace initSt [Ev.send 1, Ev.chatOk 2 "a b c" none,
      Ev.typeInput "yo", Ev.send 3] = true ∧
    streamingInvariant (applyTrace [Ev.send 1, Ev.chatOk 2 "a b c" none,
      Ev.typeInput "yo", Ev.send 3] initSt).messages = false ∧
    countStreaming (applyTrace [Ev.send 1, Ev.chatOk 2 "a b c" none,
      Ev.typeInput "yo", Ev.send 3] initSt).messages = 2 := by
  decide

/-- C1, amended.  The transcript invariant — at most one streaming
message, and always as the last element — holds at every state reachable
by a valid trace of dispatcher and reveal-engine events, provided every
send fires only when no message is streaming (the spec's expected
sequencing, where a second send comes only after the previous reveal has
fully finished); it is not guaranteed for a send issued while a previous
reveal is still ticking. -/
theorem c1_amended_streaming_invariant (s0 : ChatState) (es : List Ev)
    (h0 : strongInv s0 = true) (hv : validTrace s0 es = true)
    (hs : sequenced s0 es = true) :
    streamingInvariant (applyTrace es s0).messages = true ∧
    countStreaming (applyTrace es s0).messages ≤ 1 := by
  have h := strongInv_trace es s0 h0 hv hs
  have h1 := (strongInv_parts h).1
  exact ⟨h1, countStreaming_le_one h1⟩

/-- C1, witness for the amended theorem: a concrete sequenced trace with
two sends, a full reveal and a failed dispatch. -/
theorem c1_amended_witness :
    streamingInvariant (applyTrace [Ev.send 1, Ev.chatOk 2 "a b" none,
      Ev.tick 0, Ev.tick 0, Ev.tick 0, Ev.typeInput "x", Ev.send 3,
      Ev.chatErr 4 FetchErrKind.abort] initSt).messages = true ∧
    countStreaming (applyTrace [Ev.send 1, Ev.chatOk 2 "a b" none,
      Ev.tick 0, Ev.tick 0, Ev.tick 0, Ev.typeInput "x", Ev.send 3,
      Ev.chatErr 4 FetchErrKind.abort] initSt).messages ≤ 1 :=
  c1_amended_streaming_invariant initSt
    [Ev.send 1, Ev.chatOk 2 "a b" none, Ev.tick 0, Ev.tick 0, Ev.tick 0,
      Ev.typeInput "x", Ev.send 3, Ev.chatErr 4 FetchErrKind.abort]
    (by decide) (by decide) (by decide)
